import Mathlib

/-!
Shallow embedding of `src/routes/auth.js` (an Express router proxying six
authentication operations to an Okta-like identity provider).

Modelling choices:
* JSON/JS values are `JsValue`; a JS object is an association list with the
  first binding of a key visible (`lookupKey`), and property assignment
  updates an existing key in place or appends (`objAssign`), matching JS
  object-key insertion-order semantics.
* Each route handler becomes a pure function from the request parts it reads
  (body object, `Authorization` header) and an upstream oracle
  (`Upstream : UpstreamCall → Except UpstreamError Obj`) to the pair of the
  HTTP response sent and the ordered list of upstream calls performed.
* Ambient configuration (domain, API token, client id/secret) is constant
  per process and never branched on by the handlers, so it is omitted from
  the `UpstreamCall` constructors; only request-dependent data is recorded.
* An axios failure is `UpstreamError`: `responseData = none` models a
  network-level error or a response without a JSON body
  (`error.response?.data` missing); otherwise the two fields the handlers
  inspect are kept. In JS `errorCauses`, when present in an Okta error body,
  is an array and arrays are always truthy, so the truthiness test
  `error.response?.data?.errorCauses` is modelled by `Option.isSome`.
-/

/-- A JavaScript value as far as the router observes one: the handlers only
ever test truthiness, compare against `undefined`, and pass values through. -/
inductive JsValue where
  | undefined
  | null
  | boolv (b : Bool)
  | numv (n : Int)
  | strv (s : String)
  deriving DecidableEq, Repr

/-- A JS object: association list of properties in insertion order. -/
abbrev Obj := List (String × JsValue)

/-- JS truthiness for the values in our universe. -/
def truthy : JsValue → Bool
  | .undefined => false
  | .null => false
  | .boolv b => b
  | .numv n => n ≠ 0
  | .strv s => s ≠ ""

/-- First binding of a key in an association list (JS property access). -/
def lookupKey {β : Type} : List (String × β) → String → Option β
  | [], _ => none
  | (k', v) :: rest, k => if k' = k then some v else lookupKey rest k

/-- `o[k]` in JS: the bound value, or `undefined` when the key is absent. -/
def jsGet (o : Obj) (k : String) : JsValue :=
  (lookupKey o k).getD JsValue.undefined

/-- `o[k] = v` in JS: overwrite the value at an existing key in place, else
append the new binding. -/
def objAssign : Obj → String → JsValue → Obj
  | [], k, v => [(k, v)]
  | (k', v') :: rest, k, v =>
    if k' = k then (k', v) :: rest else (k', v') :: objAssign rest k v

/-- The `profile` part of the Okta create-user payload (auth.js lines 40-45). -/
structure NewUserProfile where
  firstName : JsValue
  lastName : JsValue
  email : JsValue
  login : JsValue
  deriving DecidableEq, Repr

/-- The Okta create-user payload (auth.js lines 39-51); `passwordValue` is
`credentials.password.value`. -/
structure NewUser where
  profile : NewUserProfile
  passwordValue : JsValue
  deriving DecidableEq, Repr

/-- One upstream HTTP call, recording exactly the request-dependent data the
router puts into it. -/
inductive UpstreamCall where
  /-- POST `/api/v1/users?activate=...` (signup, lines 54-58). -/
  | createUser (newUser : NewUser) (activate : Bool)
  /-- POST `/oauth2/v1/token`, password grant (login, lines 110-119); the
  constant grant parameters and client credentials are configuration. -/
  | tokenExchange (username : JsValue) (password : JsValue)
  /-- GET `/oauth2/v1/userinfo` with a bearer token (lines 154-161, 195-202). -/
  | userinfo (token : String)
  /-- POST `/api/v1/users/{userId}` with `{profile: ...}` (lines 276-280);
  `profileUpdate` is the inner profile object. -/
  | updateUser (userId : JsValue) (profileUpdate : Obj)
  /-- POST `/api/v1/users/{email}/lifecycle/reset_password?sendEmail=true`
  (lines 318-322). -/
  | resetPassword (email : JsValue)
  /-- POST `/oauth2/v1/revoke` (lines 358-366); client credentials are
  configuration. -/
  | revoke (token : JsValue)
  deriving DecidableEq, Repr

/-- The fields of an upstream error body that any handler inspects
(`errorSummary`, `errorCauses`). `errorCauses`, when present, is an array of
cause objects (kept opaque); a present array is always truthy in JS. -/
structure OktaErrorData where
  errorSummary : JsValue
  errorCauses : Option (List JsValue)
  deriving DecidableEq, Repr

/-- An axios failure: `responseData` is `error.response?.data` when that
chain is present. -/
structure UpstreamError where
  responseData : Option OktaErrorData
  deriving DecidableEq, Repr

/-- The upstream identity provider, as an oracle from calls to outcomes; a
success carries the JSON body `response.data` as an object. -/
def Upstream := UpstreamCall → Except UpstreamError Obj

/-- The caller-facing response: HTTP status plus the JSON envelope fields.
Fields a handler does not set are `none` (absent from the JSON). -/
structure ApiResponse where
  status : Nat
  success : Bool
  message : Option JsValue := none
  errors : Option (List JsValue) := none
  userId : Option JsValue := none
  token : Option JsValue := none
  id_token : Option JsValue := none
  expires_in : Option JsValue := none
  profile : Option Obj := none
  deriving DecidableEq, Repr

/-- The static allow-list of profile fields (auth.js lines 220-251), in
source order: caller-visible name paired with the Okta profile field name. -/
def allowedFieldsList : List (String × String) :=
  [("firstName", "firstName"),
   ("lastName", "lastName"),
   ("middleName", "middleName"),
   ("honorificPrefix", "honorificPrefix"),
   ("honorificSuffix", "honorificSuffix"),
   ("email", "email"),
   ("title", "title"),
   ("displayName", "displayName"),
   ("nickName", "nickName"),
   ("profileUrl", "profileUrl"),
   ("secondEmail", "secondEmail"),
   ("mobilePhone", "mobilePhone"),
   ("primaryPhone", "primaryPhone"),
   ("streetAddress", "streetAddress"),
   ("city", "city"),
   ("state", "state"),
   ("zipCode", "zipCode"),
   ("countryCode", "countryCode"),
   ("postalAddress", "postalAddress"),
   ("preferredLanguage", "preferredLanguage"),
   ("locale", "locale"),
   ("timezone", "timezone"),
   ("userType", "userType"),
   ("employeeNumber", "employeeNumber"),
   ("costCenter", "costCenter"),
   ("organization", "organization"),
   ("division", "division"),
   ("department", "department"),
   ("managerId", "managerId"),
   ("manager", "manager")]

/-- `allowedFields[key]` in JS: the mapped Okta field name, or `undefined`
(here `none`) when the key is not in the allow-list. All mapped names are
non-empty strings, hence truthy, so the JS guard
`allowedFields[key] && value !== undefined` is `isSome` plus the
`undefined` test. -/
def allowedFields (k : String) : Option String :=
  lookupKey allowedFieldsList k

/-- The mapping loop of auth.js lines 254-258, iterating the body entries in
order into the (initially empty) patch object. -/
def mapFieldsAux : Obj → Obj → Obj
  | acc, [] => acc
  | acc, (k, v) :: rest =>
    match allowedFields k with
    | some mk =>
      if v ≠ JsValue.undefined then mapFieldsAux (objAssign acc mk v) rest
      else mapFieldsAux acc rest
    | none => mapFieldsAux acc rest

/-- `profileUpdate.profile` after the mapping loop, for a given body. -/
def mapFields (body : Obj) : Obj :=
  mapFieldsAux [] body

/-- The specification of one loop iteration as a per-entry function: copy an
entry whose key is allow-listed and whose value is not `undefined`, under the
mapped name. Used to state the claim that the loop copies exactly these. -/
def mapEntry (p : String × JsValue) : Option (String × JsValue) :=
  match allowedFields p.1 with
  | some mk => if p.2 ≠ JsValue.undefined then some (mk, p.2) else none
  | none => none

/-- `authHeader.startsWith('Bearer ')`, over the characters of the strings
(the library `String.startsWith` is not kernel-reducible, so the prefix test
is modelled directly). -/
def jsStartsWith (s pre : String) : Bool :=
  pre.data.isPrefixOf s.data

/-- `str.split(c)` of JS, over characters: split at every occurrence of the
separator; adjacent separators yield empty pieces. -/
def splitChar (c : Char) : List Char → List (List Char)
  | [] => [[]]
  | x :: xs =>
    if x = c then [] :: splitChar c xs
    else
      match splitChar c xs with
      | [] => [[x]]
      | y :: ys => (x :: y) :: ys

/-- `authHeader.split(' ')[1]`: the token part of a Bearer header. -/
def bearerToken (h : String) : String :=
  String.mk ((splitChar ' ' h.data).getD 1 [])

/-- POST `/signup` (auth.js lines 26-82). -/
def signup (body : Obj) (up : Upstream) : ApiResponse × List UpstreamCall :=
  let firstName := jsGet body "firstName"
  let lastName := jsGet body "lastName"
  let email := jsGet body "email"
  let password := jsGet body "password"
  if !truthy firstName || !truthy lastName || !truthy email || !truthy password then
    ({ status := 400, success := false,
       message := some (.strv "Missing required fields") }, [])
  else
    let newUser : NewUser := ⟨⟨firstName, lastName, email, email⟩, password⟩
    let call := UpstreamCall.createUser newUser true
    match up call with
    | .ok data =>
      ({ status := 201, success := true,
         message := some (.strv "User created successfully"),
         userId := some (jsGet data "id") }, [call])
    | .error e =>
      match e.responseData with
      | some d =>
        match d.errorCauses with
        | some causes =>
          ({ status := 400, success := false,
             message := some d.errorSummary, errors := some causes }, [call])
        | none =>
          ({ status := 500, success := false,
             message := some (.strv "Error creating user account") }, [call])
      | none =>
        ({ status := 500, success := false,
           message := some (.strv "Error creating user account") }, [call])

/-- POST `/login` (auth.js lines 85-136). -/
def login (body : Obj) (up : Upstream) : ApiResponse × List UpstreamCall :=
  let username := jsGet body "username"
  let password := jsGet body "password"
  if !truthy username || !truthy password then
    ({ status := 400, success := false,
       message := some (.strv "Username and password are required") }, [])
  else
    let call := UpstreamCall.tokenExchange username password
    match up call with
    | .ok data =>
      ({ status := 200, success := true,
         message := some (.strv "Login successful"),
         token := some (jsGet data "access_token"),
         id_token := some (jsGet data "id_token"),
         expires_in := some (jsGet data "expires_in") }, [call])
    | .error _ =>
      ({ status := 401, success := false,
         message := some (.strv "Authentication failed") }, [call])

/-- GET `/profile` (auth.js lines 139-175). An absent header is `undefined`
(falsy); an empty-string header is falsy and also fails the prefix test, so
the JS guard collapses to the prefix test on a present header. -/
def getProfile (authHeader : Option String) (up : Upstream) :
    ApiResponse × List UpstreamCall :=
  match authHeader with
  | none =>
    ({ status := 401, success := false,
       message := some (.strv "No token provided") }, [])
  | some h =>
    if !jsStartsWith h "Bearer " then
      ({ status := 401, success := false,
         message := some (.strv "No token provided") }, [])
    else
      let call := UpstreamCall.userinfo (bearerToken h)
      match up call with
      | .ok data =>
        ({ status := 200, success := true, profile := some data }, [call])
      | .error _ =>
        ({ status := 401, success := false,
           message := some (.strv "Failed to fetch user profile") }, [call])

/-- PUT `/profile` (auth.js lines 178-303). -/
def updateProfile (authHeader : Option String) (body : Obj) (up : Upstream) :
    ApiResponse × List UpstreamCall :=
  match authHeader with
  | none =>
    ({ status := 401, success := false,
       message := some (.strv "No token provided") }, [])
  | some h =>
    if !jsStartsWith h "Bearer " then
      ({ status := 401, success := false,
         message := some (.strv "No token provided") }, [])
    else
      let call1 := UpstreamCall.userinfo (bearerToken h)
      match up call1 with
      | .error _ =>
        ({ status := 401, success := false,
           message := some (.strv "Invalid token") }, [call1])
      | .ok userInfo =>
        let userId := jsGet userInfo "sub"
        let profile := mapFields body
        if profile.length = 0 then
          ({ status := 400, success := false,
             message := some (.strv "No valid fields to update") }, [call1])
        else
          let profile2 :=
            if truthy (jsGet body "login") then
              objAssign profile "login" (jsGet body "login")
            else profile
          let call2 := UpstreamCall.updateUser userId profile2
          match up call2 with
          | .ok _ =>
            ({ status := 200, success := true,
               message := some (.strv "Profile updated successfully") },
             [call1, call2])
          | .error e =>
            match e.responseData with
            | some d =>
              match d.errorCauses with
              | some causes =>
                ({ status := 400, success := false,
                   message := some d.errorSummary, errors := some causes },
                 [call1, call2])
              | none =>
                ({ status := 500, success := false,
                   message := some (.strv "Failed to update profile") },
                 [call1, call2])
            | none =>
              ({ status := 500, success := false,
                 message := some (.strv "Failed to update profile") },
               [call1, call2])

/-- POST `/reset-password` (auth.js lines 306-336). -/
def resetPassword (body : Obj) (up : Upstream) :
    ApiResponse × List UpstreamCall :=
  let email := jsGet body "email"
  if !truthy email then
    ({ status := 400, success := false,
       message := some (.strv "Email is required") }, [])
  else
    let call := UpstreamCall.resetPassword email
    match up call with
    | .ok _ =>
      ({ status := 200, success := true,
         message := some (.strv "Password reset email sent") }, [call])
    | .error _ =>
      ({ status := 400, success := false,
         message := some (.strv "Failed to send password reset email") },
       [call])

/-- POST `/logout` (auth.js lines 339-380). -/
def logout (body : Obj) (up : Upstream) : ApiResponse × List UpstreamCall :=
  let token := jsGet body "token"
  if !truthy token then
    ({ status := 400, success := false,
       message := some (.strv "Token is required") }, [])
  else
    let call := UpstreamCall.revoke token
    match up call with
    | .ok _ =>
      ({ status := 200, success := true,
         message := some (.strv "Logged out successfully") }, [call])
    | .error _ =>
      ({ status := 500, success := false,
         message := some (.strv "Failed to logout") }, [call])

/-! ### The upstream call each handler builds from a request -/

/-- The create-user call of `/signup` for a given body (auth.js lines 39-58). -/
def signupCall (body : Obj) : UpstreamCall :=
  .createUser
    ⟨⟨jsGet body "firstName", jsGet body "lastName", jsGet body "email",
      jsGet body "email"⟩, jsGet body "password"⟩ true

/-- The token-exchange call of `/login` for a given body (lines 98-119). -/
def loginCall (body : Obj) : UpstreamCall :=
  .tokenExchange (jsGet body "username") (jsGet body "password")

/-- The userinfo call made from a Bearer header (lines 151-161, 190-202). -/
def userinfoCall (h : String) : UpstreamCall :=
  .userinfo (bearerToken h)

/-- The lifecycle call of `/reset-password` for a given body (lines 318-322). -/
def resetCall (body : Obj) : UpstreamCall :=
  .resetPassword (jsGet body "email")

/-- The revocation call of `/logout` for a given body (lines 351-366). -/
def revokeCall (body : Obj) : UpstreamCall :=
  .revoke (jsGet body "token")

/-- The invariant of the patch object built by the mapping loop: every entry
has an allow-listed key mapped to itself with a defined value, and keys are
distinct (it is a genuine JS object). -/
def GoodPatch (o : Obj) : Prop :=
  (∀ p ∈ o, allowedFields p.1 = some p.1 ∧ p.2 ≠ JsValue.undefined) ∧
    (o.map Prod.fst).Nodup

/-- The profile object actually sent in the patch call of `/profile` PUT:
the mapping-loop output, plus the special-cased `login` passthrough of
auth.js lines 269-273 when `req.body.login` is truthy. -/
def patchObject (body : Obj) : Obj :=
  if truthy (jsGet body "login") then
    objAssign (mapFields body) "login" (jsGet body "login")
  else mapFields body

/-! ### Concrete requests and oracles used by witnesses and counterexamples -/

def wSignupBody : Obj :=
  [("firstName", .strv "Ada"), ("lastName", .strv "Lovelace"),
   ("email", .strv "ada@example.com"), ("password", .strv "s3cret")]

def wLoginBody : Obj :=
  [("username", .strv "ada@example.com"), ("password", .strv "s3cret")]

def wResetBody : Obj := [("email", .strv "ada@example.com")]

def wLogoutBody : Obj := [("token", .strv "tok1")]

def wOneFieldBody : Obj := [("firstName", .strv "Grace")]

def wTwoFieldBody : Obj :=
  [("firstName", .strv "Grace"), ("favoriteColor", .strv "teal")]

def wLoginFieldBody : Obj :=
  [("firstName", .strv "Ada"), ("login", .strv "new@example.com")]

/-- Body for the C4 counterexample: a `login` field is present but has a
falsy (empty-string) value. -/
def cxLoginEmptyBody : Obj :=
  [("firstName", .strv "Ada"), ("login", .strv "")]

/-- The fixed response body of the all-successful upstream oracle. -/
def upOkObj : Obj :=
  [("id", .strv "00u9"), ("sub", .strv "00u9"),
   ("access_token", .strv "at1"), ("id_token", .strv "idt1"),
   ("expires_in", .numv 3600)]

/-- An upstream that answers every call successfully with a fixed body. -/
def upAllOk : Upstream := fun _ => .ok upOkObj

/-- An upstream that fails every call with no response body (network error). -/
def upNetErr : Upstream := fun _ => .error ⟨none⟩

/-- An upstream that fails every call with an Okta validation-error body. -/
def upValidationErr : Upstream := fun _ =>
  .error ⟨some ⟨.strv "Api validation failed", some [.strv "cause-detail"]⟩⟩

/-- An upstream whose userinfo endpoint succeeds and whose other endpoints
fail with no response body. -/
def upUserinfoOnly : Upstream := fun c =>
  match c with
  | .userinfo _ => .ok [("sub", .strv "00u9")]
  | _ => .error ⟨none⟩

/-! ### Association-list lemmas -/

theorem lookupKey_isSome_iff {β : Type} (l : List (String × β)) (k : String) :
    (lookupKey l k).isSome = true ↔ k ∈ l.map Prod.fst := by
  induction l with
  | nil => simp [lookupKey]
  | cons p rest ih =>
    obtain ⟨k', v⟩ := p
    by_cases h : k' = k
    · subst h; simp [lookupKey]
    · simp [lookupKey, h, ih, Ne.symm h]

theorem lookupKey_mem {β : Type} {l : List (String × β)} {k : String} {v : β}
    (h : lookupKey l k = some v) : (k, v) ∈ l := by
  induction l with
  | nil => simp [lookupKey] at h
  | cons p rest ih =>
    obtain ⟨k', v'⟩ := p
    by_cases hk : k' = k
    · subst hk
      simp [lookupKey] at h
      subst h; exact List.mem_cons_self _ _
    · simp [lookupKey, hk] at h
      exact List.mem_cons_of_mem _ (ih h)

theorem objAssign_of_not_mem {o : Obj} {k : String} (v : JsValue)
    (h : k ∉ o.map Prod.fst) : objAssign o k v = o ++ [(k, v)] := by
  induction o with
  | nil => rfl
  | cons p rest ih =>
    obtain ⟨k', v'⟩ := p
    simp only [List.map_cons, List.mem_cons] at h
    push_neg at h
    simp [objAssign, Ne.symm h.1, ih h.2]

theorem lookupKey_objAssign_self (o : Obj) (k : String) (v : JsValue) :
    lookupKey (objAssign o k v) k = some v := by
  induction o with
  | nil => simp [objAssign, lookupKey]
  | cons p rest ih =>
    obtain ⟨k', v'⟩ := p
    by_cases h : k' = k
    · subst h; simp [objAssign, lookupKey]
    · simp [objAssign, lookupKey, h, ih]

theorem mem_objAssign {o : Obj} {k : String} {v : JsValue} {p : String × JsValue}
    (h : p ∈ objAssign o k v) : p ∈ o ∨ p = (k, v) := by
  induction o with
  | nil => simp [objAssign] at h; simp [h]
  | cons q rest ih =>
    obtain ⟨k', v'⟩ := q
    by_cases hk : k' = k
    · subst hk
      rw [objAssign, if_pos rfl] at h
      rcases List.mem_cons.mp h with h1 | h1
      · exact Or.inr h1
      · exact Or.inl (List.mem_cons_of_mem _ h1)
    · rw [objAssign, if_neg hk] at h
      rcases List.mem_cons.mp h with h1 | h1
      · exact Or.inl (h1 ▸ List.mem_cons_self _ _)
      · rcases ih h1 with h2 | h2
        · exact Or.inl (List.mem_cons_of_mem _ h2)
        · exact Or.inr h2

theorem keys_objAssign (o : Obj) (k : String) (v : JsValue) :
    (objAssign o k v).map Prod.fst =
      if k ∈ o.map Prod.fst then o.map Prod.fst else o.map Prod.fst ++ [k] := by
  induction o with
  | nil => simp [objAssign]
  | cons p rest ih =>
    obtain ⟨k', v'⟩ := p
    by_cases hk : k' = k
    · subst hk; simp [objAssign]
    · simp only [objAssign, if_neg hk, List.map_cons, ih]
      by_cases hm : k ∈ rest.map Prod.fst
      · simp [hm, Ne.symm hk]
      · simp [hm, Ne.symm hk]

/-! ### Allow-list facts -/

theorem allowedFieldsList_identity : ∀ p ∈ allowedFieldsList, p.1 = p.2 := by
  decide

theorem allowed_identity {k mk : String} (h : allowedFields k = some mk) :
    mk = k := by
  have hm := lookupKey_mem (l := allowedFieldsList) h
  have := allowedFieldsList_identity _ hm
  simpa using this.symm

theorem allowed_login_none : allowedFields "login" = none := by decide

theorem allowed_ne_login {k mk : String} (h : allowedFields k = some mk) :
    k ≠ "login" := by
  intro hk
  rw [hk, allowed_login_none] at h
  exact Option.noConfusion h

/-! ### Mapping-loop lemmas -/

theorem goodPatch_nil : GoodPatch [] := by
  constructor <;> simp

theorem goodPatch_objAssign {o : Obj} {k : String} {v : JsValue}
    (hg : GoodPatch o) (hk : allowedFields k = some k)
    (hv : v ≠ JsValue.undefined) : GoodPatch (objAssign o k v) := by
  obtain ⟨hent, hnd⟩ := hg
  constructor
  · intro p hp
    rcases mem_objAssign hp with h | h
    · exact hent p h
    · subst h; exact ⟨hk, hv⟩
  · rw [keys_objAssign]
    by_cases hm : k ∈ o.map Prod.fst
    · simpa [hm] using hnd
    · rw [if_neg hm, List.nodup_append]
      refine ⟨hnd, List.nodup_singleton k, ?_⟩
      intro a ha hb
      rw [List.mem_singleton] at hb
      exact hm (hb ▸ ha)

theorem goodPatch_mapFieldsAux (body : Obj) :
    ∀ acc : Obj, GoodPatch acc → GoodPatch (mapFieldsAux acc body) := by
  induction body with
  | nil => intro acc h; exact h
  | cons p rest ih =>
    intro acc hacc
    obtain ⟨k, v⟩ := p
    cases hk : allowedFields k with
    | none => simpa [mapFieldsAux, hk] using ih acc hacc
    | some mk =>
      have hmk : mk = k := allowed_identity hk
      subst hmk
      by_cases hv : v = JsValue.undefined
      · simpa [mapFieldsAux, hk, hv] using ih acc hacc
      · have : GoodPatch (objAssign acc mk v) :=
          goodPatch_objAssign hacc hk hv
        simpa [mapFieldsAux, hk, hv] using ih _ this

theorem goodPatch_mapFields (body : Obj) : GoodPatch (mapFields body) :=
  goodPatch_mapFieldsAux body [] goodPatch_nil

theorem mapFieldsAux_append (o : Obj) (hg : GoodPatch o) :
    ∀ acc : Obj, (∀ k ∈ o.map Prod.fst, k ∉ acc.map Prod.fst) →
      mapFieldsAux acc o = acc ++ o := by
  induction o with
  | nil => intro acc _; simp [mapFieldsAux]
  | cons p rest ih =>
    intro acc hdisj
    obtain ⟨k, v⟩ := p
    obtain ⟨hent, hnd⟩ := hg
    obtain ⟨hk, hv⟩ := hent (k, v) (List.mem_cons_self _ _)
    simp only at hk hv
    have hknotacc : k ∉ acc.map Prod.fst := hdisj k (by simp)
    have hassign : objAssign acc k v = acc ++ [(k, v)] :=
      objAssign_of_not_mem v hknotacc
    have hgrest : GoodPatch rest :=
      ⟨fun q hq => hent q (List.mem_cons_of_mem _ hq),
       (List.nodup_cons.mp (by simpa using hnd)).2⟩
    have hdisj' : ∀ k' ∈ rest.map Prod.fst,
        k' ∉ (acc ++ [(k, v)]).map Prod.fst := by
      intro k' hk' hmem
      simp only [List.map_append, List.mem_append] at hmem
      rcases hmem with h | h
      · exact hdisj k' (by simp [hk']) h
      · simp at h
        have hkk : k ∉ rest.map Prod.fst :=
          (List.nodup_cons.mp (by simpa using hnd)).1
        exact hkk (h ▸ hk')
    calc mapFieldsAux acc ((k, v) :: rest)
        = mapFieldsAux (objAssign acc k v) rest := by
          simp [mapFieldsAux, hk, hv]
      _ = (acc ++ [(k, v)]) ++ rest := by
          rw [hassign]; exact ih hgrest _ hdisj'
      _ = acc ++ ((k, v) :: rest) := by simp

theorem mapFields_fixpoint {o : Obj} (hg : GoodPatch o) : mapFields o = o := by
  have := mapFieldsAux_append o hg [] (by simp)
  simpa [mapFields] using this

theorem mapFieldsAux_filterMap (body : Obj) :
    ∀ acc : Obj, (body.map Prod.fst).Nodup →
      (∀ k ∈ body.map Prod.fst, k ∉ acc.map Prod.fst) →
      mapFieldsAux acc body = acc ++ body.filterMap mapEntry := by
  induction body with
  | nil => intro acc _ _; simp [mapFieldsAux]
  | cons p rest ih =>
    intro acc hnd hdisj
    obtain ⟨k, v⟩ := p
    have hndrest : (rest.map Prod.fst).Nodup :=
      (List.nodup_cons.mp (by simpa using hnd)).2
    have hknotrest : k ∉ rest.map Prod.fst :=
      (List.nodup_cons.mp (by simpa using hnd)).1
    cases hk : allowedFields k with
    | none =>
      have hdisj' : ∀ k' ∈ rest.map Prod.fst, k' ∉ acc.map Prod.fst :=
        fun k' hk' => hdisj k' (by simp [hk'])
      simp [mapFieldsAux, hk, mapEntry, ih acc hndrest hdisj']
    | some mk =>
      obtain rfl : mk = k := allowed_identity hk
      by_cases hv : v = JsValue.undefined
      · have hdisj' : ∀ k' ∈ rest.map Prod.fst, k' ∉ acc.map Prod.fst :=
          fun k' hk' => hdisj k' (by simp [hk'])
        simp [mapFieldsAux, hk, hv, mapEntry, ih acc hndrest hdisj']
      · have hknotacc : mk ∉ acc.map Prod.fst := hdisj mk (by simp)
        have hassign : objAssign acc mk v = acc ++ [(mk, v)] :=
          objAssign_of_not_mem v hknotacc
        have hdisj' : ∀ k' ∈ rest.map Prod.fst,
            k' ∉ (acc ++ [(mk, v)]).map Prod.fst := by
          intro k' hk' hmem
          simp only [List.map_append, List.mem_append] at hmem
          rcases hmem with h | h
          · exact hdisj k' (by simp [hk']) h
          · simp at h
            exact hknotrest (h ▸ hk')
        have step : mapFieldsAux acc ((mk, v) :: rest) =
            mapFieldsAux (objAssign acc mk v) rest := by
          simp [mapFieldsAux, hk, hv]
        rw [step, hassign, ih _ hndrest hdisj']
        simp [mapEntry, hk, hv]

theorem mapFields_eq_filterMap {body : Obj}
    (hnd : (body.map Prod.fst).Nodup) :
    mapFields body = body.filterMap mapEntry := by
  have := mapFieldsAux_filterMap body [] hnd (by simp)
  simpa [mapFields] using this

/-! ### Branch characterizations of the handlers -/

theorem signup_eq_invalid (body : Obj) (up : Upstream)
    (hcond : (!truthy (jsGet body "firstName") || !truthy (jsGet body "lastName") ||
      !truthy (jsGet body "email") || !truthy (jsGet body "password")) = true) :
    signup body up =
      ({ status := 400, success := false,
         message := some (.strv "Missing required fields") }, []) := by
  simp only [signup]
  rw [hcond]
  rfl

theorem signup_eq_ok (body : Obj) (up : Upstream) (d : Obj)
    (hfn : truthy (jsGet body "firstName") = true)
    (hln : truthy (jsGet body "lastName") = true)
    (hem : truthy (jsGet body "email") = true)
    (hpw : truthy (jsGet body "password") = true)
    (hok : up (signupCall body) = .ok d) :
    signup body up =
      ({ status := 201, success := true,
         message := some (.strv "User created successfully"),
         userId := some (jsGet d "id") }, [signupCall body]) := by
  simp only [signupCall] at hok ⊢
  simp only [signup, hfn, hln, hem, hpw, Bool.not_true, Bool.or_self,
    Bool.false_or, Bool.or_false, if_false, hok]
  rfl

theorem signup_eq_err_causes (body : Obj) (up : Upstream) (e : UpstreamError)
    (d : OktaErrorData) (causes : List JsValue)
    (hfn : truthy (jsGet body "firstName") = true)
    (hln : truthy (jsGet body "lastName") = true)
    (hem : truthy (jsGet body "email") = true)
    (hpw : truthy (jsGet body "password") = true)
    (he : up (signupCall body) = .error e)
    (hd : e.responseData = some d)
    (hc : d.errorCauses = some causes) :
    signup body up =
      ({ status := 400, success := false,
         message := some d.errorSummary, errors := some causes },
       [signupCall body]) := by
  simp only [signupCall] at he ⊢
  simp only [signup, hfn, hln, hem, hpw, Bool.not_true, Bool.or_self,
    Bool.false_or, Bool.or_false, if_false, he, hd, hc]
  rfl

theorem signup_eq_err_nodata (body : Obj) (up : Upstream) (e : UpstreamError)
    (hfn : truthy (jsGet body "firstName") = true)
    (hln : truthy (jsGet body "lastName") = true)
    (hem : truthy (jsGet body "email") = true)
    (hpw : truthy (jsGet body "password") = true)
    (he : up (signupCall body) = .error e)
    (hd : e.responseData = none) :
    signup body up =
      ({ status := 500, success := false,
         message := some (.strv "Error creating user account") },
       [signupCall body]) := by
  simp only [signupCall] at he ⊢
  simp only [signup, hfn, hln, hem, hpw, Bool.not_true, Bool.or_self,
    Bool.false_or, Bool.or_false, if_false, he, hd]
  rfl

theorem signup_eq_err_nocauses (body : Obj) (up : Upstream) (e : UpstreamError)
    (d : OktaErrorData)
    (hfn : truthy (jsGet body "firstName") = true)
    (hln : truthy (jsGet body "lastName") = true)
    (hem : truthy (jsGet body "email") = true)
    (hpw : truthy (jsGet body "password") = true)
    (he : up (signupCall body) = .error e)
    (hd : e.responseData = some d)
    (hc : d.errorCauses = none) :
    signup body up =
      ({ status := 500, success := false,
         message := some (.strv "Error creating user account") },
       [signupCall body]) := by
  simp only [signupCall] at he ⊢
  simp only [signup, hfn, hln, hem, hpw, Bool.not_true, Bool.or_self,
    Bool.false_or, Bool.or_false, if_false, he, hd, hc]
  rfl

theorem login_eq_invalid (body : Obj) (up : Upstream)
    (hcond : (!truthy (jsGet body "username") ||
      !truthy (jsGet body "password")) = true) :
    login body up =
      ({ status := 400, success := false,
         message := some (.strv "Username and password are required") }, []) := by
  simp only [login]
  rw [hcond]
  rfl

theorem login_eq_ok (body : Obj) (up : Upstream) (d : Obj)
    (hu : truthy (jsGet body "username") = true)
    (hp : truthy (jsGet body "password") = true)
    (hok : up (loginCall body) = .ok d) :
    login body up =
      ({ status := 200, success := true,
         message := some (.strv "Login successful"),
         token := some (jsGet d "access_token"),
         id_token := some (jsGet d "id_token"),
         expires_in := some (jsGet d "expires_in") }, [loginCall body]) := by
  simp only [loginCall] at hok ⊢
  simp only [login, hu, hp, Bool.not_true, Bool.or_self, if_false, hok]
  rfl

theorem login_eq_err (body : Obj) (up : Upstream) (e : UpstreamError)
    (hu : truthy (jsGet body "username") = true)
    (hp : truthy (jsGet body "password") = true)
    (he : up (loginCall body) = .error e) :
    login body up =
      ({ status := 401, success := false,
         message := some (.strv "Authentication failed") }, [loginCall body]) := by
  simp only [loginCall] at he ⊢
  simp only [login, hu, hp, Bool.not_true, Bool.or_self, if_false, he]
  rfl

theorem getProfile_eq_noheader (up : Upstream) :
    getProfile none up =
      ({ status := 401, success := false,
         message := some (.strv "No token provided") }, []) := rfl

theorem getProfile_eq_badheader (h : String) (up : Upstream)
    (hb : jsStartsWith h "Bearer " = false) :
    getProfile (some h) up =
      ({ status := 401, success := false,
         message := some (.strv "No token provided") }, []) := by
  simp only [getProfile, hb, Bool.not_false, if_true]

theorem getProfile_eq_ok (h : String) (up : Upstream) (d : Obj)
    (hb : jsStartsWith h "Bearer " = true)
    (hok : up (userinfoCall h) = .ok d) :
    getProfile (some h) up =
      ({ status := 200, success := true, profile := some d },
       [userinfoCall h]) := by
  simp only [userinfoCall] at hok ⊢
  simp only [getProfile, hb, Bool.not_true, if_false, hok]
  rfl

theorem getProfile_eq_err (h : String) (up : Upstream) (e : UpstreamError)
    (hb : jsStartsWith h "Bearer " = true)
    (he : up (userinfoCall h) = .error e) :
    getProfile (some h) up =
      ({ status := 401, success := false,
         message := some (.strv "Failed to fetch user profile") },
       [userinfoCall h]) := by
  simp only [userinfoCall] at he ⊢
  simp only [getProfile, hb, Bool.not_true, if_false, he]
  rfl

theorem updateProfile_eq_noheader (body : Obj) (up : Upstream) :
    updateProfile none body up =
      ({ status := 401, success := false,
         message := some (.strv "No token provided") }, []) := rfl

theorem updateProfile_eq_badheader (h : String) (body : Obj) (up : Upstream)
    (hb : jsStartsWith h "Bearer " = false) :
    updateProfile (some h) body up =
      ({ status := 401, success := false,
         message := some (.strv "No token provided") }, []) := by
  simp only [updateProfile, hb, Bool.not_false, if_true]

theorem updateProfile_eq_uierr (h : String) (body : Obj) (up : Upstream)
    (e : UpstreamError)
    (hb : jsStartsWith h "Bearer " = true)
    (he : up (userinfoCall h) = .error e) :
    updateProfile (some h) body up =
      ({ status := 401, success := false,
         message := some (.strv "Invalid token") }, [userinfoCall h]) := by
  simp only [userinfoCall] at he ⊢
  simp only [updateProfile, hb, Bool.not_true, if_false, he]
  rfl

theorem updateProfile_eq_empty (h : String) (body : Obj) (up : Upstream)
    (ui : Obj)
    (hb : jsStartsWith h "Bearer " = true)
    (hui : up (userinfoCall h) = .ok ui)
    (hemp : mapFields body = []) :
    updateProfile (some h) body up =
      ({ status := 400, success := false,
         message := some (.strv "No valid fields to update") },
       [userinfoCall h]) := by
  simp only [userinfoCall] at hui ⊢
  simp only [updateProfile, hb, Bool.not_true, if_false, hui, hemp,
    List.length_nil, if_pos rfl]
  rfl

theorem updateProfile_trace_patch (h : String) (body : Obj) (up : Upstream)
    (ui : Obj)
    (hb : jsStartsWith h "Bearer " = true)
    (hui : up (userinfoCall h) = .ok ui)
    (hne : (mapFields body).length ≠ 0) :
    (updateProfile (some h) body up).2 =
      [userinfoCall h, .updateUser (jsGet ui "sub") (patchObject body)] := by
  simp only [userinfoCall] at hui ⊢
  simp only [updateProfile, patchObject, hb, Bool.not_true, if_false, hui,
    if_neg hne]
  cases up (.updateUser (jsGet ui "sub")
      (if truthy (jsGet body "login") then
        objAssign (mapFields body) "login" (jsGet body "login")
      else mapFields body)) with
  | ok d => rfl
  | error e =>
    cases hd : e.responseData with
    | none => simp [hd]
    | some dd =>
      cases hc : dd.errorCauses with
      | none => simp [hd, hc]
      | some causes => simp [hd, hc]

theorem updateProfile_eq_patch_ok (h : String) (body : Obj) (up : Upstream)
    (ui d2 : Obj)
    (hb : jsStartsWith h "Bearer " = true)
    (hui : up (userinfoCall h) = .ok ui)
    (hne : (mapFields body).length ≠ 0)
    (hup : up (.updateUser (jsGet ui "sub") (patchObject body)) = .ok d2) :
    updateProfile (some h) body up =
      ({ status := 200, success := true,
         message := some (.strv "Profile updated successfully") },
       [userinfoCall h, .updateUser (jsGet ui "sub") (patchObject body)]) := by
  simp only [userinfoCall] at hui ⊢
  simp only [patchObject] at hup ⊢
  simp only [updateProfile, hb, Bool.not_true, if_false, hui, if_neg hne, hup]
  rfl

theorem reset_eq_invalid (body : Obj) (up : Upstream)
    (hcond : truthy (jsGet body "email") = false) :
    resetPassword body up =
      ({ status := 400, success := false,
         message := some (.strv "Email is required") }, []) := by
  simp only [resetPassword, hcond, Bool.not_false, if_true]

theorem reset_eq_ok (body : Obj) (up : Upstream) (d : Obj)
    (ht : truthy (jsGet body "email") = true)
    (hok : up (resetCall body) = .ok d) :
    resetPassword body up =
      ({ status := 200, success := true,
         message := some (.strv "Password reset email sent") },
       [resetCall body]) := by
  simp only [resetCall] at hok ⊢
  simp only [resetPassword, ht, Bool.not_true, if_false, hok]
  rfl

theorem reset_eq_err (body : Obj) (up : Upstream) (e : UpstreamError)
    (ht : truthy (jsGet body "email") = true)
    (he : up (resetCall body) = .error e) :
    resetPassword body up =
      ({ status := 400, success := false,
         message := some (.strv "Failed to send password reset email") },
       [resetCall body]) := by
  simp only [resetCall] at he ⊢
  simp only [resetPassword, ht, Bool.not_true, if_false, he]
  rfl

theorem logout_eq_invalid (body : Obj) (up : Upstream)
    (hcond : truthy (jsGet body "token") = false) :
    logout body up =
      ({ status := 400, success := false,
         message := some (.strv "Token is required") }, []) := by
  simp only [logout, hcond, Bool.not_false, if_true]

theorem logout_eq_ok (body : Obj) (up : Upstream) (d : Obj)
    (ht : truthy (jsGet body "token") = true)
    (hok : up (revokeCall body) = .ok d) :
    logout body up =
      ({ status := 200, success := true,
         message := some (.strv "Logged out successfully") },
       [revokeCall body]) := by
  simp only [revokeCall] at hok ⊢
  simp only [logout, ht, Bool.not_true, if_false, hok]
  rfl

theorem logout_eq_err (body : Obj) (up : Upstream) (e : UpstreamError)
    (ht : truthy (jsGet body "token") = true)
    (he : up (revokeCall body) = .error e) :
    logout body up =
      ({ status := 500, success := false,
         message := some (.strv "Failed to logout") }, [revokeCall body]) := by
  simp only [revokeCall] at he ⊢
  simp only [logout, ht, Bool.not_true, if_false, he]
  rfl

/-! ### Claim theorems -/

/-- C1: for every login request whose body carries truthy (in particular
non-empty) username and password, an upstream token-exchange failure makes
the handler answer exactly status 401 with body
`{success: false, message: "Authentication failed"}` and no other payload
field. The right-hand side does not depend on the error `e`, so any two
distinct upstream error responses produce the identical caller-visible
response and no part of the upstream error body reaches the caller. -/
theorem login_upstream_failure_uniform (body : Obj) (up : Upstream)
    (e : UpstreamError)
    (hu : truthy (jsGet body "username") = true)
    (hp : truthy (jsGet body "password") = true)
    (he : up (loginCall body) = .error e) :
    login body up =
      ({ status := 401, success := false,
         message := some (.strv "Authentication failed") }, [loginCall body]) :=
  login_eq_err body up e hu hp he

theorem login_upstream_failure_uniform_witness :
    truthy (jsGet wLoginBody "username") = true ∧
    truthy (jsGet wLoginBody "password") = true ∧
    upNetErr (loginCall wLoginBody) = .error ⟨none⟩ ∧
    login wLoginBody upNetErr =
      ({ status := 401, success := false,
         message := some (.strv "Authentication failed") },
       [loginCall wLoginBody]) :=
  ⟨rfl, rfl, rfl,
   login_upstream_failure_uniform wLoginBody upNetErr ⟨none⟩ rfl rfl rfl⟩

/-- C2: for every update-profile request with a well-formed Bearer header,
the handler makes at most two upstream calls, in the fixed order userinfo
first and then (possibly) the profile patch; and whenever the userinfo call
fails the patch is never attempted and the status is 401. -/
theorem updateProfile_sequencing (h : String) (body : Obj) (up : Upstream)
    (hb : jsStartsWith h "Bearer " = true) :
    ((updateProfile (some h) body up).2.length ≤ 2 ∧
      ∃ rest, (updateProfile (some h) body up).2 = userinfoCall h :: rest ∧
        (rest = [] ∨ ∃ uid patch, rest = [UpstreamCall.updateUser uid patch])) ∧
    (∀ e : UpstreamError, up (userinfoCall h) = .error e →
      (updateProfile (some h) body up).1.status = 401 ∧
      (updateProfile (some h) body up).2 = [userinfoCall h]) := by
  cases hui : up (userinfoCall h) with
  | error e =>
    have heq := updateProfile_eq_uierr h body up e hb hui
    refine ⟨⟨?_, [], ?_, Or.inl rfl⟩, ?_⟩
    · rw [heq]; simp
    · rw [heq]
    · intro e' _
      rw [heq]
      exact ⟨rfl, rfl⟩
  | ok ui =>
    have hcontra : ∀ e' : UpstreamError,
        (Except.ok ui : Except UpstreamError Obj) = .error e' →
        (updateProfile (some h) body up).1.status = 401 ∧
        (updateProfile (some h) body up).2 = [userinfoCall h] :=
      fun e' he' => Except.noConfusion he'
    by_cases hlen : (mapFields body).length = 0
    · have hemp : mapFields body = [] := List.length_eq_zero.mp hlen
      have heq := updateProfile_eq_empty h body up ui hb hui hemp
      refine ⟨⟨?_, [], ?_, Or.inl rfl⟩, hcontra⟩
      · rw [heq]; simp
      · rw [heq]
    · have htr := updateProfile_trace_patch h body up ui hb hui hlen
      refine ⟨⟨?_,
        [UpstreamCall.updateUser (jsGet ui "sub") (patchObject body)], ?_,
        Or.inr ⟨jsGet ui "sub", patchObject body, rfl⟩⟩, hcontra⟩
      · rw [htr]; simp
      · rw [htr]

theorem updateProfile_sequencing_witness :
    jsStartsWith "Bearer tok" "Bearer " = true ∧
    (updateProfile (some "Bearer tok") wOneFieldBody upUserinfoOnly).2.length ≤ 2 ∧
    ((updateProfile (some "Bearer tok") wOneFieldBody upNetErr).1.status = 401 ∧
      (updateProfile (some "Bearer tok") wOneFieldBody upNetErr).2 =
        [userinfoCall "Bearer tok"]) :=
  ⟨rfl,
   (updateProfile_sequencing "Bearer tok" wOneFieldBody upUserinfoOnly rfl).1.1,
   (updateProfile_sequencing "Bearer tok" wOneFieldBody upNetErr rfl).2 ⟨none⟩ rfl⟩

/-- C3: the patch object is the mapping loop's output, which copies exactly
the body entries whose key is in the allow-list and whose value is not
`undefined`, each under its mapped name (stated for bodies with distinct
keys, as every JS object has); when that object is empty the handler answers
400 having made only the userinfo call and no patch call; and a body of
exactly one recognized field yields exactly one patch call whose profile
object holds only that mapped field. -/
theorem updateProfile_field_mapping :
    (∀ body : Obj, (body.map Prod.fst).Nodup →
      mapFields body = body.filterMap mapEntry) ∧
    (∀ (h : String) (body : Obj) (up : Upstream) (ui : Obj),
      jsStartsWith h "Bearer " = true → up (userinfoCall h) = .ok ui →
      mapFields body = [] →
      (updateProfile (some h) body up).1.status = 400 ∧
      (updateProfile (some h) body up).2 = [userinfoCall h]) ∧
    (∀ (h : String) (up : Upstream) (ui : Obj) (k mk : String) (v : JsValue),
      jsStartsWith h "Bearer " = true → up (userinfoCall h) = .ok ui →
      allowedFields k = some mk → v ≠ JsValue.undefined →
      (updateProfile (some h) [(k, v)] up).2 =
        [userinfoCall h,
         UpstreamCall.updateUser (jsGet ui "sub") [(mk, v)]]) := by
  refine ⟨fun body hnd => mapFields_eq_filterMap hnd, ?_, ?_⟩
  · intro h body up ui hb hui hemp
    have heq := updateProfile_eq_empty h body up ui hb hui hemp
    rw [heq]
    exact ⟨rfl, rfl⟩
  · intro h up ui k mk v hb hui hk hv
    have hmf : mapFields [(k, v)] = [(mk, v)] := by
      simp [mapFields, mapFieldsAux, hk, hv, objAssign]
    have hkne : k ≠ "login" := allowed_ne_login hk
    have hlogin : truthy (jsGet [(k, v)] "login") = false := by
      simp [jsGet, lookupKey, hkne, truthy]
    have hne : (mapFields [(k, v)]).length ≠ 0 := by rw [hmf]; simp
    have htr := updateProfile_trace_patch h [(k, v)] up ui hb hui hne
    rw [htr]
    simp [patchObject, hlogin, hmf]

theorem updateProfile_field_mapping_witness :
    (wTwoFieldBody.map Prod.fst).Nodup ∧
    mapFields wTwoFieldBody = wTwoFieldBody.filterMap mapEntry ∧
    mapFields [("favoriteColor", JsValue.strv "teal")] = [] ∧
    ((updateProfile (some "Bearer tok") [("favoriteColor", JsValue.strv "teal")]
        upUserinfoOnly).1.status = 400 ∧
      (updateProfile (some "Bearer tok") [("favoriteColor", JsValue.strv "teal")]
        upUserinfoOnly).2 = [userinfoCall "Bearer tok"]) ∧
    (updateProfile (some "Bearer tok") wOneFieldBody upUserinfoOnly).2 =
      [userinfoCall "Bearer tok",
       UpstreamCall.updateUser (JsValue.strv "00u9")
         [("firstName", JsValue.strv "Grace")]] :=
  ⟨by decide,
   updateProfile_field_mapping.1 wTwoFieldBody (by decide),
   rfl,
   updateProfile_field_mapping.2.1 "Bearer tok"
     [("favoriteColor", JsValue.strv "teal")] upUserinfoOnly
     [("sub", JsValue.strv "00u9")] rfl rfl rfl,
   updateProfile_field_mapping.2.2 "Bearer tok" upUserinfoOnly
     [("sub", JsValue.strv "00u9")] "firstName" "firstName"
     (JsValue.strv "Grace") rfl rfl rfl (by decide)⟩

/-- C4 counterexample: a request body that contains a `login` field bound to
the empty string (a falsy but present value). The patch call is made, yet
its profile object carries no `login` key: the source's passthrough is
guarded by `if (req.body.login)`, a truthiness test, so the copy is not
unconditional on presence as claimed. -/
theorem updateProfile_login_dropped_cx :
    lookupKey cxLoginEmptyBody "login" = some (.strv "") ∧
    (updateProfile (some "Bearer tok") cxLoginEmptyBody upUserinfoOnly).2 =
      [UpstreamCall.userinfo "tok",
       UpstreamCall.updateUser (.strv "00u9") [("firstName", .strv "Ada")]] ∧
    lookupKey [("firstName", JsValue.strv "Ada")] "login" = none :=
  ⟨rfl, rfl, rfl⟩

/-- C4 (amended): for every update-profile request body whose `login` field
holds a truthy value (e.g. a non-empty string), that value is copied into
the patch object's `login` field, bypassing the allow-list, so the upstream
patch, when made, includes the caller-supplied login value. -/
theorem updateProfile_login_passthrough (h : String) (body : Obj)
    (up : Upstream) (ui : Obj)
    (hb : jsStartsWith h "Bearer " = true)
    (hui : up (userinfoCall h) = .ok ui)
    (hlog : truthy (jsGet body "login") = true)
    (hne : (mapFields body).length ≠ 0) :
    (updateProfile (some h) body up).2 =
      [userinfoCall h,
       UpstreamCall.updateUser (jsGet ui "sub")
         (objAssign (mapFields body) "login" (jsGet body "login"))] ∧
    lookupKey (objAssign (mapFields body) "login" (jsGet body "login"))
      "login" = some (jsGet body "login") := by
  constructor
  · have htr := updateProfile_trace_patch h body up ui hb hui hne
    rw [htr]
    simp [patchObject, hlog]
  · exact lookupKey_objAssign_self _ _ _

theorem updateProfile_login_passthrough_witness :
    truthy (jsGet wLoginFieldBody "login") = true ∧
    (mapFields wLoginFieldBody).length ≠ 0 ∧
    ((updateProfile (some "Bearer tok") wLoginFieldBody upUserinfoOnly).2 =
      [userinfoCall "Bearer tok",
       UpstreamCall.updateUser (jsGet [("sub", JsValue.strv "00u9")] "sub")
         (objAssign (mapFields wLoginFieldBody) "login"
           (jsGet wLoginFieldBody "login"))] ∧
     lookupKey (objAssign (mapFields wLoginFieldBody) "login"
         (jsGet wLoginFieldBody "login")) "login" =
       some (jsGet wLoginFieldBody "login")) :=
  ⟨rfl, by decide,
   updateProfile_login_passthrough "Bearer tok" wLoginFieldBody upUserinfoOnly
     [("sub", JsValue.strv "00u9")] rfl rfl rfl (by decide)⟩

/-- C5: for each of the six operations, a request missing its required input
(a falsy required body field, which covers missing and empty; or a missing
or non-Bearer Authorization header for the two profile operations) is
answered with status 400 or 401 and zero upstream calls are made. -/
theorem missing_input_no_upstream :
    (∀ (body : Obj) (up : Upstream),
      (!truthy (jsGet body "firstName") || !truthy (jsGet body "lastName") ||
        !truthy (jsGet body "email") || !truthy (jsGet body "password")) = true →
      (signup body up).1.status = 400 ∧ (signup body up).2 = []) ∧
    (∀ (body : Obj) (up : Upstream),
      (!truthy (jsGet body "username") ||
        !truthy (jsGet body "password")) = true →
      (login body up).1.status = 400 ∧ (login body up).2 = []) ∧
    (∀ up : Upstream,
      (getProfile none up).1.status = 401 ∧ (getProfile none up).2 = []) ∧
    (∀ (h : String) (up : Upstream), jsStartsWith h "Bearer " = false →
      (getProfile (some h) up).1.status = 401 ∧
      (getProfile (some h) up).2 = []) ∧
    (∀ (body : Obj) (up : Upstream),
      (updateProfile none body up).1.status = 401 ∧
      (updateProfile none body up).2 = []) ∧
    (∀ (h : String) (body : Obj) (up : Upstream),
      jsStartsWith h "Bearer " = false →
      (updateProfile (some h) body up).1.status = 401 ∧
      (updateProfile (some h) body up).2 = []) ∧
    (∀ (body : Obj) (up : Upstream), truthy (jsGet body "email") = false →
      (resetPassword body up).1.status = 400 ∧
      (resetPassword body up).2 = []) ∧
    (∀ (body : Obj) (up : Upstream), truthy (jsGet body "token") = false →
      (logout body up).1.status = 400 ∧ (logout body up).2 = []) := by
  refine ⟨?_, ?_, ?_, ?_, ?_, ?_, ?_, ?_⟩
  · intro body up hc
    rw [signup_eq_invalid body up hc]
    exact ⟨rfl, rfl⟩
  · intro body up hc
    rw [login_eq_invalid body up hc]
    exact ⟨rfl, rfl⟩
  · intro up
    exact ⟨rfl, rfl⟩
  · intro h up hb
    rw [getProfile_eq_badheader h up hb]
    exact ⟨rfl, rfl⟩
  · intro body up
    exact ⟨rfl, rfl⟩
  · intro h body up hb
    rw [updateProfile_eq_badheader h body up hb]
    exact ⟨rfl, rfl⟩
  · intro body up hc
    rw [reset_eq_invalid body up hc]
    exact ⟨rfl, rfl⟩
  · intro body up hc
    rw [logout_eq_invalid body up hc]
    exact ⟨rfl, rfl⟩

theorem missing_input_no_upstream_witness :
    (!truthy (jsGet ([] : Obj) "firstName") ||
      !truthy (jsGet ([] : Obj) "lastName") ||
      !truthy (jsGet ([] : Obj) "email") ||
      !truthy (jsGet ([] : Obj) "password")) = true ∧
    ((signup [] upAllOk).1.status = 400 ∧ (signup [] upAllOk).2 = []) ∧
    ((login [] upAllOk).1.status = 400 ∧ (login [] upAllOk).2 = []) ∧
    ((getProfile none upAllOk).1.status = 401 ∧
      (getProfile none upAllOk).2 = []) ∧
    jsStartsWith "Token abc" "Bearer " = false ∧
    ((getProfile (some "Token abc") upAllOk).1.status = 401 ∧
      (getProfile (some "Token abc") upAllOk).2 = []) ∧
    ((updateProfile none wOneFieldBody upAllOk).1.status = 401 ∧
      (updateProfile none wOneFieldBody upAllOk).2 = []) ∧
    ((updateProfile (some "Token abc") wOneFieldBody upAllOk).1.status = 401 ∧
      (updateProfile (some "Token abc") wOneFieldBody upAllOk).2 = []) ∧
    ((resetPassword [] upAllOk).1.status = 400 ∧
      (resetPassword [] upAllOk).2 = []) ∧
    ((logout [] upAllOk).1.status = 400 ∧ (logout [] upAllOk).2 = []) :=
  ⟨rfl,
   missing_input_no_upstream.1 [] upAllOk rfl,
   missing_input_no_upstream.2.1 [] upAllOk rfl,
   missing_input_no_upstream.2.2.1 upAllOk,
   rfl,
   missing_input_no_upstream.2.2.2.1 "Token abc" upAllOk rfl,
   missing_input_no_upstream.2.2.2.2.1 wOneFieldBody upAllOk,
   missing_input_no_upstream.2.2.2.2.2.1 "Token abc" wOneFieldBody upAllOk rfl,
   missing_input_no_upstream.2.2.2.2.2.2.1 [] upAllOk rfl,
   missing_input_no_upstream.2.2.2.2.2.2.2 [] upAllOk rfl⟩

/-- C6: password reset with a falsy email (missing or empty) answers 400
with no upstream call; with a truthy email, upstream success yields 200
`{success:true}` and every upstream failure, whatever its detail `e`, yields
the one fixed 400 `{success:false}` response with a generic message, so the
caller cannot tell whether the account exists. -/
theorem resetPassword_existence_hiding :
    (∀ (body : Obj) (up : Upstream), truthy (jsGet body "email") = false →
      resetPassword body up =
        ({ status := 400, success := false,
           message := some (.strv "Email is required") }, [])) ∧
    (∀ (body : Obj) (up : Upstream) (d : Obj),
      truthy (jsGet body "email") = true → up (resetCall body) = .ok d →
      resetPassword body up =
        ({ status := 200, success := true,
           message := some (.strv "Password reset email sent") },
         [resetCall body])) ∧
    (∀ (body : Obj) (up : Upstream) (e : UpstreamError),
      truthy (jsGet body "email") = true → up (resetCall body) = .error e →
      resetPassword body up =
        ({ status := 400, success := false,
           message := some (.strv "Failed to send password reset email") },
         [resetCall body])) :=
  ⟨reset_eq_invalid, reset_eq_ok, reset_eq_err⟩

theorem resetPassword_existence_hiding_witness :
    truthy (jsGet ([] : Obj) "email") = false ∧
    resetPassword [] upAllOk =
      ({ status := 400, success := false,
         message := some (.strv "Email is required") }, []) ∧
    resetPassword wResetBody upAllOk =
      ({ status := 200, success := true,
         message := some (.strv "Password reset email sent") },
       [resetCall wResetBody]) ∧
    resetPassword wResetBody upNetErr =
      ({ status := 400, success := false,
         message := some (.strv "Failed to send password reset email") },
       [resetCall wResetBody]) ∧
    resetPassword wResetBody upValidationErr =
      ({ status := 400, success := false,
         message := some (.strv "Failed to send password reset email") },
       [resetCall wResetBody]) :=
  ⟨rfl,
   resetPassword_existence_hiding.1 [] upAllOk rfl,
   resetPassword_existence_hiding.2.1 wResetBody upAllOk upOkObj rfl rfl,
   resetPassword_existence_hiding.2.2 wResetBody upNetErr ⟨none⟩ rfl rfl,
   resetPassword_existence_hiding.2.2 wResetBody upValidationErr
     ⟨some ⟨.strv "Api validation failed", some [.strv "cause-detail"]⟩⟩
     rfl rfl⟩

/-- C7: signup with all four required fields truthy answers 201 with
`success:true` and `userId` equal to the `id` of the upstream creation
response; an upstream failure carrying the structured validation shape
(`errorCauses` present) answers 400 exposing that summary and those causes;
any other upstream failure (no response data, or data without
`errorCauses`) answers a generic 500. -/
theorem signup_response_policy :
    (∀ (body : Obj) (up : Upstream) (d : Obj),
      truthy (jsGet body "firstName") = true →
      truthy (jsGet body "lastName") = true →
      truthy (jsGet body "email") = true →
      truthy (jsGet body "password") = true →
      up (signupCall body) = .ok d →
      signup body up =
        ({ status := 201, success := true,
           message := some (.strv "User created successfully"),
           userId := some (jsGet d "id") }, [signupCall body])) ∧
    (∀ (body : Obj) (up : Upstream) (e : UpstreamError) (d : OktaErrorData)
        (causes : List JsValue),
      truthy (jsGet body "firstName") = true →
      truthy (jsGet body "lastName") = true →
      truthy (jsGet body "email") = true →
      truthy (jsGet body "password") = true →
      up (signupCall body) = .error e → e.responseData = some d →
      d.errorCauses = some causes →
      signup body up =
        ({ status := 400, success := false,
           message := some d.errorSummary, errors := some causes },
         [signupCall body])) ∧
    (∀ (body : Obj) (up : Upstream) (e : UpstreamError),
      truthy (jsGet body "firstName") = true →
      truthy (jsGet body "lastName") = true →
      truthy (jsGet body "email") = true →
      truthy (jsGet body "password") = true →
      up (signupCall body) = .error e → e.responseData = none →
      signup body up =
        ({ status := 500, success := false,
           message := some (.strv "Error creating user account") },
         [signupCall body])) ∧
    (∀ (body : Obj) (up : Upstream) (e : UpstreamError) (d : OktaErrorData),
      truthy (jsGet body "firstName") = true →
      truthy (jsGet body "lastName") = true →
      truthy (jsGet body "email") = true →
      truthy (jsGet body "password") = true →
      up (signupCall body) = .error e → e.responseData = some d →
      d.errorCauses = none →
      signup body up =
        ({ status := 500, success := false,
           message := some (.strv "Error creating user account") },
         [signupCall body])) :=
  ⟨signup_eq_ok, signup_eq_err_causes, signup_eq_err_nodata,
   signup_eq_err_nocauses⟩

theorem signup_response_policy_witness :
    truthy (jsGet wSignupBody "firstName") = true ∧
    signup wSignupBody upAllOk =
      ({ status := 201, success := true,
         message := some (.strv "User created successfully"),
         userId := some (jsGet upOkObj "id") }, [signupCall wSignupBody]) ∧
    signup wSignupBody upValidationErr =
      ({ status := 400, success := false,
         message := some (.strv "Api validation failed"),
         errors := some [.strv "cause-detail"] }, [signupCall wSignupBody]) ∧
    signup wSignupBody upNetErr =
      ({ status := 500, success := false,
         message := some (.strv "Error creating user account") },
       [signupCall wSignupBody]) :=
  ⟨rfl,
   signup_response_policy.1 wSignupBody upAllOk upOkObj rfl rfl rfl rfl rfl,
   signup_response_policy.2.1 wSignupBody upValidationErr
     ⟨some ⟨.strv "Api validation failed", some [.strv "cause-detail"]⟩⟩
     ⟨.strv "Api validation failed", some [.strv "cause-detail"]⟩
     [.strv "cause-detail"] rfl rfl rfl rfl rfl rfl rfl,
   signup_response_policy.2.2.1 wSignupBody upNetErr ⟨none⟩
     rfl rfl rfl rfl rfl rfl⟩

/-- C8 counterexample: the static allow-list of auth.js lines 220-251 has
30 entries (`firstName` through `manager`), not 29 as claimed. -/
theorem allowList_29_cx :
    allowedFieldsList.length = 30 ∧ allowedFieldsList.length ≠ 29 := by
  decide

/-- C8 (amended): the static allow-list has exactly 30 distinct keys; a key
is mapped iff it is one of those 30; and every body key outside the map
never reaches the patch object produced by the mapping loop (unknown fields
are silently dropped, not reported). -/
theorem allowList_total_unknown_dropped :
    allowedFieldsList.length = 30 ∧
    (allowedFieldsList.map Prod.fst).Nodup ∧
    (∀ k : String, (allowedFields k).isSome = true ↔
      k ∈ allowedFieldsList.map Prod.fst) ∧
    (∀ (body : Obj) (k : String), allowedFields k = none →
      k ∉ (mapFields body).map Prod.fst) := by
  refine ⟨by decide, by decide, fun k => lookupKey_isSome_iff allowedFieldsList k, ?_⟩
  intro body k hk hmem
  obtain ⟨hent, -⟩ := goodPatch_mapFields body
  obtain ⟨p, hp, hfst⟩ := List.mem_map.mp hmem
  have hsome := (hent p hp).1
  rw [hfst, hk] at hsome
  exact Option.noConfusion hsome

theorem allowList_total_unknown_dropped_witness :
    allowedFields "favoriteColor" = none ∧
    "favoriteColor" ∉ (mapFields wTwoFieldBody).map Prod.fst ∧
    ((allowedFields "firstName").isSome = true ↔
      "firstName" ∈ allowedFieldsList.map Prod.fst) :=
  ⟨rfl,
   allowList_total_unknown_dropped.2.2.2 wTwoFieldBody "favoriteColor" rfl,
   allowList_total_unknown_dropped.2.2.1 "firstName"⟩

/-- C9: the allow-list field mapping is idempotent: mapping the patch object
a second time returns it unchanged, for every input body. -/
theorem mapFields_idempotent (body : Obj) :
    mapFields (mapFields body) = mapFields body :=
  mapFields_fixpoint (goodPatch_mapFields body)

/-- C10: every signup request passing validation sends the provider exactly
one create-user call whose profile has `login` equal to the caller-supplied
`email` field (so the caller cannot choose a login distinct from the email)
and whose activate flag is `true`. -/
theorem signup_forces_login_eq_email (body : Obj) (up : Upstream)
    (hfn : truthy (jsGet body "firstName") = true)
    (hln : truthy (jsGet body "lastName") = true)
    (hem : truthy (jsGet body "email") = true)
    (hpw : truthy (jsGet body "password") = true) :
    (signup body up).2 =
      [UpstreamCall.createUser
        ⟨⟨jsGet body "firstName", jsGet body "lastName", jsGet body "email",
          jsGet body "email"⟩, jsGet body "password"⟩ true] ∧
    (∀ (u : NewUser) (act : Bool),
      (signup body up).2 = [UpstreamCall.createUser u act] →
      u.profile.login = u.profile.email ∧
      u.profile.login = jsGet body "email" ∧ act = true) := by
  have htr : (signup body up).2 = [signupCall body] := by
    cases hcall : up (signupCall body) with
    | ok d => rw [signup_eq_ok body up d hfn hln hem hpw hcall]
    | error e =>
      cases hd : e.responseData with
      | none => rw [signup_eq_err_nodata body up e hfn hln hem hpw hcall hd]
      | some dd =>
        cases hc : dd.errorCauses with
        | none =>
          rw [signup_eq_err_nocauses body up e dd hfn hln hem hpw hcall hd hc]
        | some causes =>
          rw [signup_eq_err_causes body up e dd causes
            hfn hln hem hpw hcall hd hc]
  refine ⟨htr, ?_⟩
  intro u act heq
  rw [htr] at heq
  simp only [signupCall, List.cons.injEq, and_true,
    UpstreamCall.createUser.injEq] at heq
  obtain ⟨hu, hact⟩ := heq
  subst hu
  exact ⟨rfl, rfl, hact.symm⟩

theorem signup_forces_login_eq_email_witness :
    truthy (jsGet wSignupBody "firstName") = true ∧
    truthy (jsGet wSignupBody "password") = true ∧
    (signup wSignupBody upAllOk).2 =
      [UpstreamCall.createUser
        ⟨⟨jsGet wSignupBody "firstName", jsGet wSignupBody "lastName",
          jsGet wSignupBody "email", jsGet wSignupBody "email"⟩,
         jsGet wSignupBody "password"⟩ true] :=
  ⟨rfl, rfl,
   (signup_forces_login_eq_email wSignupBody upAllOk rfl rfl rfl rfl).1⟩
